import Mathlib

/-!
Shallow embedding of `pgextras` (`src/pgextras/__init__.py`), the PostgreSQL
diagnostics client, together with theorems checking the natural-language
specification against it.

The Python class `PgExtras` is modelled as explicit state passing: every
method becomes a function from a `State` (the mutable fields of `self`) and a
`Db` (the environment answering SQL queries) to a result paired with the
updated state.  Fallible methods return `Except PgError`.  The list
`State.executed` is a ghost log of every SQL statement submitted through
`execute`, in order, used to state memoization and never-executed properties.

The module `pgextras.sql_constants` (imported as `sql`) is not part of the
sources; the constants taken from it are modelled from the spec and marked as
such in their doc comments.
-/

set_option maxRecDepth 40000

/-- Decidable equality for `Except`, by cases on the two constructors. -/
instance {ε α : Type} [DecidableEq ε] [DecidableEq α] : DecidableEq (Except ε α) := fun x y =>
  match x, y with
  | .error a, .error b =>
      if h : a = b then .isTrue (by rw [h]) else .isFalse (by simp [h])
  | .error _, .ok _ => .isFalse (by simp)
  | .ok _, .error _ => .isFalse (by simp)
  | .ok a, .ok b =>
      if h : a = b then .isTrue (by rw [h]) else .isFalse (by simp [h])

namespace PgExtras

/-- Whitespace characters recognised by Python's argument-less `str.split`
(ASCII space, tab, newline, carriage return, vertical tab, form feed). -/
def isPySpace (c : Char) : Bool :=
  c = ' ' || c = '\t' || c = '\n' || c = '\r' || c = '\x0b' || c = '\x0c'

/-- Tokenizer behind Python's argument-less `str.split`: cut at runs of
whitespace, never producing empty tokens.  `acc` holds the characters of the
token currently being read, in reverse. -/
def pyTokensAux : List Char → List Char → List (List Char)
  | [], [] => []
  | [], acc => [acc.reverse]
  | c :: cs, acc =>
      if isPySpace c then
        match acc with
        | [] => pyTokensAux cs []
        | _ :: _ => acc.reverse :: pyTokensAux cs []
      else pyTokensAux cs (c :: acc)

/-- Python `statement.split()`: split on runs of whitespace, dropping empty
pieces (hence also trimming both ends). -/
def pySplit (s : String) : List String :=
  (pyTokensAux s.data []).map String.mk

/-- Python `' '.join(tokens)`. -/
def joinTokens : List String → String
  | [] => ""
  | [t] => t
  | t :: t2 :: ts => t ++ " " ++ joinTokens (t2 :: ts)

/-- Python `statement.replace('\n', '')`: replacing a single character by the
empty string deletes every occurrence of that character. -/
def removeNewlines (s : String) : String :=
  String.mk (s.data.filter (fun c => c ≠ '\n'))

/-- The normalization performed by `PgExtras.execute` (lines 96-100 of the
source): first delete every newline character, then join the remaining
whitespace-separated tokens with single spaces. -/
def normalize (statement : String) : String :=
  joinTokens (pySplit (removeNewlines statement))

/-- The normalization the spec describes for `execute`: collapse the
statement's internal whitespace and newlines into single spaces, preserving
token order.  Stated from the spec's words for comparison with `normalize`. -/
def specNormalize (statement : String) : String :=
  joinTokens (pySplit statement)

/-- Error kinds of the spec's error taxonomy that the embedded code can
raise: `environmentError` models `raise EnvironmentError(...)` (line 51) and
`parseError` models the failure of resolving the version capability flag when
the version string does not match the expected pattern (lines 62-64, where
`matches.groups()` faults on a failed regex match). -/
inductive PgError where
  | environmentError (msg : String)
  | parseError
  deriving DecidableEq

/-- Result rows.  The two probe queries are answered with rows carrying the
named field the code reads (`available`, `version`); report queries return
opaque data rows. -/
inductive Row where
  | versionRow (version : String)
  | availableRow (available : Bool)
  | dataRow (idx : Nat)
  deriving DecidableEq

/-- Field access `row.available` used at line 46 of the source. -/
def Row.availableField : Row → Bool
  | .availableRow b => b
  | _ => false

/-- Field access `row.version` used at line 63 of the source. -/
def Row.versionField : Row → String
  | .versionRow v => v
  | _ => ""

/-- The mutable fields of a `PgExtras` instance (lines 15-20), plus the ghost
log `executed` of submitted SQL statements. -/
structure State where
  dsn : Option String
  pgStatStatementFlag : Option Bool
  nineTwoFlag : Option Bool
  cursorCreated : Bool
  connCreated : Bool
  executed : List String
  deriving DecidableEq

/-- `PgExtras.__init__(dsn)`: every cached field starts out `None`. -/
def init (dsn : Option String) : State :=
  { dsn := dsn
    pgStatStatementFlag := none
    nineTwoFlag := none
    cursorCreated := false
    connCreated := false
    executed := [] }

/-- The database environment: what the server would answer to the two probe
queries.  `version_string` is the single `version` column returned by the
`VERSION` query; `stat_available` the `available` column returned by the
`PG_STAT_STATEMENT` probe. -/
structure Db where
  version_string : String
  stat_available : Bool
  deriving DecidableEq

/-- Modelled from the spec: `sql_constants.VERSION` (the module is absent
from src); a `SELECT version()`-equivalent query. -/
def VERSION : String := "SELECT version()"

/-- Modelled from the spec: `sql_constants.PG_STAT_STATEMENT` (absent from
src); the probe query against the extension's catalog view, returning one row
with a boolean column `available`. -/
def PG_STAT_STATEMENT : String :=
  "SELECT exists(SELECT 1 FROM pg_available_extensions WHERE name = \x27pg_stat_statements\x27) AS available"

/-- Modelled from the spec: `sql_constants.PG_STATS_NOT_AVAILABLE` (absent
from src); the fixed remediation message carried by the EnvironmentError. -/
def PG_STATS_NOT_AVAILABLE : String :=
  "install the pg_stat_statements module"

/-- How the environment answers a (normalized) SQL text: the two probes get
their named rows, everything else an opaque data row. -/
def Db.answer (db : Db) (sqlText : String) : List Row :=
  if sqlText = normalize VERSION then [Row.versionRow db.version_string]
  else if sqlText = normalize PG_STAT_STATEMENT then [Row.availableRow db.stat_available]
  else [Row.dataRow 0]

/-- The `cursor` property (lines 28-38): on first access it creates the
connection and the cursor; afterwards it is a no-op. -/
def ensureCursor (st : State) : State :=
  if st.cursorCreated then st
  else { st with cursorCreated := true, connCreated := true }

/-- `PgExtras.execute` (lines 96-103): normalize the statement, make sure the
cursor exists, submit the statement (logged in `executed`) and return all
rows the environment answers. -/
def execute (st : State) (db : Db) (statement : String) : List Row × State :=
  let sqlN := normalize statement
  let st1 := ensureCursor st
  let st2 := { st1 with executed := st1.executed ++ [sqlN] }
  (db.answer sqlN, st2)

/-- `PgExtras.version` (lines 259-262). -/
def version (st : State) (db : Db) : List Row × State :=
  execute st db VERSION

/-- The `pg_stat_statement` property (lines 40-53): memoized probe of the
statistics extension.  On `available = false` it raises `EnvironmentError`
with the fixed message, leaving the cached field `None`. -/
def pg_stat_statement (st : State) (db : Db) : Except PgError Bool × State :=
  match st.pgStatStatementFlag with
  | some b => (.ok b, st)
  | none =>
    let (rows, st1) := execute st db PG_STAT_STATEMENT
    let is_available := (rows.headD (Row.availableRow false)).availableField
    if is_available then
      (.ok true, { st1 with pgStatStatementFlag := some true })
    else
      (.error (.environmentError PG_STATS_NOT_AVAILABLE), st1)

/-- One step of `\d+`: the maximal leading run of ASCII digits and the rest. -/
def takeDigits : List Char → List Char × List Char
  | [] => ([], [])
  | c :: rest =>
      if c.isDigit then
        let (d, r) := takeDigits rest
        (c :: d, r)
      else ([], c :: rest)

/-- Match a literal prefix, returning the remainder on success. -/
def dropLit : List Char → List Char → Option (List Char)
  | [], cs => some cs
  | _ :: _, [] => none
  | l :: ls, c :: cs => if l = c then dropLit ls cs else none

/-- `re.compile("PostgreSQL (\d+\.\d+\.\d+) on").match(s)` restricted to the
captured group (line 62-64): anchored at the start of `s`, greedy digit runs.
Because a digit run is followed by a required non-digit literal, greedy
maximal munch coincides with the regex's backtracking search. -/
def matchVersionGroup (s : String) : Option String :=
  match dropLit "PostgreSQL ".data s.data with
  | none => none
  | some r0 =>
    match takeDigits r0 with
    | ([], _) => none
    | (d1, r1) =>
      match r1 with
      | '.' :: r1a =>
        match takeDigits r1a with
        | ([], _) => none
        | (d2, r2) =>
          match r2 with
          | '.' :: r2a =>
            match takeDigits r2a with
            | ([], _) => none
            | (d3, r3) =>
              match dropLit " on".data r3 with
              | none => none
              | some _ => some (String.mk (d1 ++ '.' :: (d2 ++ '.' :: d3)))
          | _ => none
      | _ => none

/-- Python's `<` on strings: strict lexicographic comparison of the two
character lists by code point. -/
def pyStrLt : List Char → List Char → Bool
  | [], [] => false
  | [], _ :: _ => true
  | _ :: _, [] => false
  | c :: cs, d :: ds =>
      if c < d then true
      else if d < c then false
      else pyStrLt cs ds

/-- Python string comparison `a < b`. -/
def pyStringLt (a b : String) : Bool :=
  pyStrLt a.data b.data

/-- The `is_pg_at_least_nine_two` property (lines 55-71): memoized; resolves
by running the `VERSION` query, matching the version pattern and comparing
the captured group with `'9.2.0'` by lexical string order (`version >
'9.2.0'` in Python is `pyStringLt "9.2.0" version` here). -/
def is_pg_at_least_nine_two (st : State) (db : Db) : Except PgError Bool × State :=
  match st.nineTwoFlag with
  | some b => (.ok b, st)
  | none =>
    let (rows, st1) := version st db
    let vstr := (rows.headD (Row.versionRow "")).versionField
    match matchVersionGroup vstr with
    | none => (.error .parseError, st1)
    | some v =>
      if pyStringLt "9.2.0" v then
        (.ok true, { st1 with nineTwoFlag := some true })
      else
        (.ok false, { st1 with nineTwoFlag := some false })

/-- The `query_column` property (lines 73-79). -/
def query_column (st : State) (db : Db) : Except PgError String × State :=
  match is_pg_at_least_nine_two st db with
  | (.ok true, st1) => (.ok "query", st1)
  | (.ok false, st1) => (.ok "current_query", st1)
  | (.error e, st1) => (.error e, st1)

/-- The `pid_column` property (lines 81-87). -/
def pid_column (st : State) (db : Db) : Except PgError String × State :=
  match is_pg_at_least_nine_two st db with
  | (.ok true, st1) => (.ok "pid", st1)
  | (.ok false, st1) => (.ok "procpid", st1)
  | (.error e, st1) => (.error e, st1)

/-- Release actions emitted by `close_db_connection`, recording which
resources are closed and in which order. -/
inductive Action where
  | closeCursor
  | closeConn
  deriving DecidableEq

/-- `PgExtras.close_db_connection` (lines 89-94): close the cursor if it
exists, then the connection if it exists.  The fields are not reset (the
source never assigns them back to `None`), and closing an already-closed
psycopg2 cursor or connection does not raise, so the function is total and
returns the unchanged state together with the ordered release actions. -/
def close_db_connection (st : State) : State × List Action :=
  (st,
   (if st.cursorCreated then [Action.closeCursor] else []) ++
   (if st.connCreated then [Action.closeConn] else []))

/-- Left-to-right, non-overlapping replacement of a non-empty pattern, as in
Python `str.replace`.  The fuel argument, instantiated with the length of the
subject, keeps the recursion structural. -/
def replaceAux (pat rep : List Char) : Nat → List Char → List Char
  | _, [] => []
  | 0, s => s
  | fuel + 1, c :: cs =>
      match dropLit pat (c :: cs) with
      | some rest => rep ++ replaceAux pat rep fuel rest
      | none => c :: replaceAux pat rep fuel cs

/-- Python `template.format(key=value)` for a template holding a single
named placeholder: replace every `\x7bkey\x7d` occurrence by `value`. -/
def formatOne (t key value : String) : String :=
  String.mk (replaceAux ("\x7b" ++ key ++ "\x7d").data value.data t.data.length t.data)

/-- Substitution of both column placeholders, as in
`t.format(query_column=..., pid_column=...)`. -/
def formatPidQueryColumns (t qc pc : String) : String :=
  formatOne (formatOne t "query_column" qc) "pid_column" pc

/-- The column-substitution step shared by the pid/query-bearing reports
`blocking`, `long_running_queries`, `locks` and `ps` (lines 134-143, 172-186,
227-235, 243-257): resolve both column names through
`is_pg_at_least_nine_two` and substitute them into the template's
`\x7bquery_column\x7d` and `\x7bpid_column\x7d` placeholders. -/
def renderTemplate (t : String) (st : State) (db : Db) : Except PgError String × State :=
  match query_column st db with
  | (.error e, st1) => (.error e, st1)
  | (.ok qc, st1) =>
    match pid_column st1 db with
    | (.error e, st2) => (.error e, st2)
    | (.ok pc, st2) => (.ok (formatPidQueryColumns t qc pc), st2)

/-- The truncating select fragment of `calls` (lines 122-128), exactly as the
Python triple-quoted literal. -/
def CALLS_TRUNC_SELECT : String :=
  "\n                    SELECT CASE\n                        WHEN length(query) < 40\n                        THEN query\n                        ELSE substr(query, 0, 38) || \x27..\x27\n                    END AS qry,\n                "

/-- The truncating query fragment of `outliers` (lines 150-155), exactly as
the Python triple-quoted literal. -/
def OUTLIERS_TRUNC_QUERY : String :=
  "\n                    CASE WHEN length(query) < 40\n                        THEN query\n                        ELSE substr(query, 0, 38) || \x27..\x27\n                    END\n                "

/-- Modelled from the spec: the part of the `sql_constants.CALLS` template
(absent from src) after its single `\x7bselect\x7d` placeholder; the report
lists the ten most frequently called queries. -/
def CALLS_POST : String :=
  " calls, total_time FROM pg_stat_statements ORDER BY calls DESC LIMIT 10"

/-- Modelled from the spec: `sql_constants.CALLS` (absent from src), a fixed
template with one `\x7bselect\x7d` placeholder. -/
def CALLS : String := "\x7bselect\x7d" ++ CALLS_POST

/-- Modelled from the spec: the part of the `sql_constants.OUTLIERS` template
(absent from src) before its single `\x7bquery\x7d` placeholder. -/
def OUTLIERS_PRE : String := "SELECT "

/-- Modelled from the spec: the part of the `sql_constants.OUTLIERS` template
(absent from src) after its single `\x7bquery\x7d` placeholder; the report
lists the ten queries with the longest aggregate execution time. -/
def OUTLIERS_POST : String :=
  " AS qry, total_time FROM pg_stat_statements ORDER BY total_time DESC LIMIT 10"

/-- Modelled from the spec: `sql_constants.OUTLIERS` (absent from src), a
fixed template with one `\x7bquery\x7d` placeholder. -/
def OUTLIERS : String := OUTLIERS_PRE ++ "\x7bquery\x7d" ++ OUTLIERS_POST

/-- The select fragment chosen by `calls` (lines 121-130). -/
def calls_select (truncate : Bool) : String :=
  if truncate then CALLS_TRUNC_SELECT else "SELECT query,"

/-- The SQL generated by `calls`: `sql.CALLS.format(select=select)`. -/
def calls_sql (truncate : Bool) : String :=
  formatOne CALLS "select" (calls_select truncate)

/-- `PgExtras.calls` (lines 117-132): requires the statistics extension via
the `pg_stat_statement` property, then executes the formatted `CALLS`
template.  When the memoized flag is falsy the Python method returns `None`,
modelled as `Except.ok none`. -/
def calls (truncate : Bool) (st : State) (db : Db) :
    Except PgError (Option (List Row)) × State :=
  match pg_stat_statement st db with
  | (.error e, st1) => (.error e, st1)
  | (.ok b, st1) =>
    if b then
      let (rows, st2) := execute st1 db (calls_sql truncate)
      (.ok (some rows), st2)
    else (.ok none, st1)

/-- The query fragment chosen by `outliers` (lines 149-157). -/
def outliers_query (truncate : Bool) : String :=
  if truncate then OUTLIERS_TRUNC_QUERY else "query"

/-- The SQL generated by `outliers`: `sql.OUTLIERS.format(query=query)`. -/
def outliers_sql (truncate : Bool) : String :=
  formatOne OUTLIERS "query" (outliers_query truncate)

/-- `PgExtras.outliers` (lines 145-159): same shape as `calls` with the
`OUTLIERS` template. -/
def outliers (truncate : Bool) (st : State) (db : Db) :
    Except PgError (Option (List Row)) × State :=
  match pg_stat_statement st db with
  | (.error e, st1) => (.error e, st1)
  | (.ok b, st1) =>
    if b then
      let (rows, st2) := execute st1 db (outliers_sql truncate)
      (.ok (some rows), st2)
    else (.ok none, st1)

/-- Numeric (semantic-version) strict order on three-part versions, stated
from the spec's words to contrast with the code's lexical string order. -/
def semverLt (a b : Nat × Nat × Nat) : Prop :=
  a.1 < b.1 ∨ (a.1 = b.1 ∧ (a.2.1 < b.2.1 ∨ (a.2.1 = b.2.1 ∧ a.2.2 < b.2.2)))

/-- Lexical (dictionary) strict order on character lists, stated from the
spec's words independently of the code: a proper initial segment is smaller,
and otherwise the first differing character decides by code point.  Used to
certify that `pyStrLt` is exactly lexical string ordering. -/
inductive LexLt : List Char → List Char → Prop where
  | nil (d : Char) (ds : List Char) : LexLt [] (d :: ds)
  | head {c d : Char} (cs ds : List Char) : c < d → LexLt (c :: cs) (d :: ds)
  | tail {c : Char} {cs ds : List Char} : LexLt cs ds → LexLt (c :: cs) (c :: ds)

/-- Concrete server environments used by witnesses and counterexamples. -/
def dbNineThree : Db := { version_string := "PostgreSQL 9.3.5 on x86_64", stat_available := true }

/-- Server reporting PostgreSQL 12.4.0 with the extension installed. -/
def dbTwelve : Db :=
  { version_string := "PostgreSQL 12.4.0 on x86_64-pc-linux-gnu, compiled by gcc", stat_available := true }

/-- Server reporting PostgreSQL 9.1.3. -/
def dbNineOne : Db := { version_string := "PostgreSQL 9.1.3 on x86_64", stat_available := true }

/-- Server reporting exactly the threshold version 9.2.0. -/
def dbNineTwo : Db := { version_string := "PostgreSQL 9.2.0 on x86_64", stat_available := true }

/-- Server reporting PostgreSQL 9.10.0. -/
def dbNineTen : Db := { version_string := "PostgreSQL 9.10.0 on x86_64", stat_available := true }

/-- Server whose statistics extension is absent. -/
def dbNoStats : Db := { version_string := "PostgreSQL 9.3.5 on x86_64", stat_available := false }

/-- Server whose version string does not match the expected pattern. -/
def dbBadVersion : Db := { version_string := "EnterpriseDB 9.3.5 on x86_64", stat_available := true }

/-! ## Helper lemmas -/

theorem ensureCursor_executed (st : State) : (ensureCursor st).executed = st.executed := by
  unfold ensureCursor
  split <;> rfl

theorem ensureCursor_pgFlag (st : State) :
    (ensureCursor st).pgStatStatementFlag = st.pgStatStatementFlag := by
  unfold ensureCursor
  split <;> rfl

theorem answer_version (db : Db) :
    db.answer (normalize VERSION) = [Row.versionRow db.version_string] := by
  unfold Db.answer
  rw [if_pos rfl]

theorem answer_probe (db : Db) :
    db.answer (normalize PG_STAT_STATEMENT) = [Row.availableRow db.stat_available] := by
  unfold Db.answer
  rw [if_neg (by decide), if_pos rfl]

/-- Resolution step of the version flag: with the flag unresolved and a
version string matching the pattern, the flag resolves to the lexical
comparison against `'9.2.0'` and the version probe is logged. -/
theorem is_pg_resolve (st : State) (db : Db) (v : String)
    (h0 : st.nineTwoFlag = none) (h : matchVersionGroup db.version_string = some v) :
    is_pg_at_least_nine_two st db =
      (.ok (pyStringLt "9.2.0" v),
       { ensureCursor st with
           nineTwoFlag := some (pyStringLt "9.2.0" v),
           executed := (ensureCursor st).executed ++ [normalize VERSION] }) := by
  unfold is_pg_at_least_nine_two version execute
  rw [h0]
  simp only [answer_version, List.headD, Row.versionField, h]
  cases hb : pyStringLt "9.2.0" v <;> simp [hb]

/-- A state whose version flag is memoized returns it without any query. -/
theorem is_pg_memoized (st : State) (db : Db) (b : Bool) (h : st.nineTwoFlag = some b) :
    is_pg_at_least_nine_two st db = (.ok b, st) := by
  unfold is_pg_at_least_nine_two
  rw [h]

/-- Resolution of the version flag when the version string does not match
the pattern: the access fails with the ParseError kind and the flag stays
unresolved. -/
theorem is_pg_parse_fail (st : State) (db : Db)
    (h0 : st.nineTwoFlag = none) (h : matchVersionGroup db.version_string = none) :
    is_pg_at_least_nine_two st db =
      (.error .parseError,
       { ensureCursor st with executed := (ensureCursor st).executed ++ [normalize VERSION] }) := by
  unfold is_pg_at_least_nine_two version execute
  rw [h0]
  simp only [answer_version, List.headD, Row.versionField, h]

/-- A state whose statistics flag is memoized returns it without any
query. -/
theorem pg_stat_memoized (st : State) (db : Db) (b : Bool)
    (h : st.pgStatStatementFlag = some b) :
    pg_stat_statement st db = (.ok b, st) := by
  unfold pg_stat_statement
  rw [h]

/-- Resolution of the statistics flag when the extension is installed. -/
theorem pg_stat_resolve_ok (st : State) (db : Db)
    (h0 : st.pgStatStatementFlag = none) (h1 : db.stat_available = true) :
    pg_stat_statement st db =
      (.ok true,
       { ensureCursor st with
           pgStatStatementFlag := some true,
           executed := (ensureCursor st).executed ++ [normalize PG_STAT_STATEMENT] }) := by
  unfold pg_stat_statement execute
  rw [h0]
  simp only [answer_probe, List.headD, Row.availableField, h1]
  rfl

/-- Resolution of the statistics flag when the extension is absent: the
access fails with the EnvironmentError kind, the cached field untouched. -/
theorem pg_stat_resolve_err (st : State) (db : Db)
    (h0 : st.pgStatStatementFlag = none) (h1 : db.stat_available = false) :
    pg_stat_statement st db =
      (.error (.environmentError PG_STATS_NOT_AVAILABLE),
       { ensureCursor st with
           executed := (ensureCursor st).executed ++ [normalize PG_STAT_STATEMENT] }) := by
  unfold pg_stat_statement execute
  rw [h0]
  simp only [answer_probe, List.headD, Row.availableField, h1]
  rfl

/-- `pyStrLt` is exactly the lexical (dictionary) strict order: certifies
that the embedded comparison is lexicographic. -/
theorem pyStrLt_iff_lexLt : ∀ a b : List Char, pyStrLt a b = true ↔ LexLt a b := by
  intro a
  induction a with
  | nil =>
    intro b
    cases b with
    | nil =>
      constructor
      · intro hf; cases hf
      · intro hl; cases hl
    | cons d ds =>
      constructor
      · intro _; exact LexLt.nil d ds
      · intro _; rfl
  | cons c cs ih =>
    intro b
    cases b with
    | nil =>
      constructor
      · intro hf; cases hf
      · intro hl; cases hl
    | cons d ds =>
      simp only [pyStrLt]
      by_cases h1 : c < d
      · rw [if_pos h1]
        constructor
        · intro _; exact LexLt.head cs ds h1
        · intro _; rfl
      · rw [if_neg h1]
        by_cases h2 : d < c
        · rw [if_pos h2]
          constructor
          · intro hf; cases hf
          · intro hl
            cases hl with
            | head _ _ hcd => exact absurd hcd h1
            | tail _ => exact absurd h2 (lt_irrefl c)
        · rw [if_neg h2]
          have hcd : c = d := le_antisymm (le_of_not_lt h2) (le_of_not_lt h1)
          subst hcd
          constructor
          · intro hp; exact LexLt.tail ((ih ds).mp hp)
          · intro hl
            cases hl with
            | head _ _ hcc => exact absurd hcc (lt_irrefl c)
            | tail hcs => exact (ih ds).mpr hcs

/-! ## Claim theorems -/

/-- C1: at the spec's scenario input `"PostgreSQL 12.4.0 on x86_64..."` the
claim expects `isRecentServerVersion() = true`, `pid_column = "pid"` and
`query_column = "query"`, but the code's lexical comparison makes
`'12.4.0' > '9.2.0'` false (since `'1' < '9'`), so the flag resolves to
`false` and both columns resolve to the legacy names, although 12.4.0 is
numerically far above 9.2.0 — the code contradicts the method's own name
`is_pg_at_least_nine_two`. -/
theorem c1_twelve_four_resolves_legacy :
    (is_pg_at_least_nine_two (init none) dbTwelve).1 = .ok false ∧
    (pid_column (init none) dbTwelve).1 = .ok "procpid" ∧
    (query_column (init none) dbTwelve).1 = .ok "current_query" ∧
    matchVersionGroup dbTwelve.version_string = some "12.4.0" ∧
    pyStringLt "9.2.0" "12.4.0" = false ∧
    semverLt (9, 2, 0) (12, 4, 0) := by
  refine ⟨by decide, by decide, by decide, by decide, by decide, Or.inl (by norm_num)⟩

/-- C2: with the statistics flag unresolved and the extension absent, both
`calls` and `outliers` fail with the EnvironmentError kind carrying the
fixed remediation message, and the only query submitted is the probe — the
CALLS / OUTLIERS report query is never executed. -/
theorem c2_missing_extension_blocks_reports :
    ∀ (truncate : Bool) (st : State) (db : Db),
      st.pgStatStatementFlag = none → db.stat_available = false →
      (calls truncate st db).1 = .error (.environmentError PG_STATS_NOT_AVAILABLE) ∧
      (calls truncate st db).2.executed = st.executed ++ [normalize PG_STAT_STATEMENT] ∧
      (outliers truncate st db).1 = .error (.environmentError PG_STATS_NOT_AVAILABLE) ∧
      (outliers truncate st db).2.executed = st.executed ++ [normalize PG_STAT_STATEMENT] := by
  intro truncate st db h0 h1
  have hp := pg_stat_resolve_err st db h0 h1
  refine ⟨?_, ?_, ?_, ?_⟩ <;>
    simp [calls, outliers, hp, ensureCursor_executed]

/-- Witness for C2 at a concrete client and server. -/
theorem c2_witness :
    (calls false (init none) dbNoStats).1 = .error (.environmentError PG_STATS_NOT_AVAILABLE) ∧
    (calls false (init none) dbNoStats).2.executed =
      (init none).executed ++ [normalize PG_STAT_STATEMENT] ∧
    (outliers false (init none) dbNoStats).1 = .error (.environmentError PG_STATS_NOT_AVAILABLE) ∧
    (outliers false (init none) dbNoStats).2.executed =
      (init none).executed ++ [normalize PG_STAT_STATEMENT] :=
  c2_missing_extension_blocks_reports false (init none) dbNoStats rfl rfl

/-- C3 counterexample: at the threshold version string
`"PostgreSQL 9.2.0 on x86_64"` the claim demands the modern names, but the
strict comparison `'9.2.0' > '9.2.0'` is false and the code resolves the
legacy names. -/
theorem c3_at_threshold_counterexample :
    matchVersionGroup dbNineTwo.version_string = some "9.2.0" ∧
    (pid_column (init none) dbNineTwo).1 = .ok "procpid" ∧
    (query_column (init none) dbNineTwo).1 = .ok "current_query" ∧
    (pid_column (init none) dbNineTwo).1 ≠ .ok "pid" := by
  refine ⟨by decide, by decide, by decide, by decide⟩

/-- C3 as amended: for every resolved version string lexically at or below
the threshold `'9.2.0'`, every pid- or query-bearing template renders with
the legacy column names, and for every version string lexically strictly
above the threshold, with the modern names. -/
theorem c3_column_substitution :
    ∀ (db : Db) (v t : String), matchVersionGroup db.version_string = some v →
      (pyStringLt "9.2.0" v = false →
        (renderTemplate t (init none) db).1 =
          .ok (formatPidQueryColumns t "current_query" "procpid")) ∧
      (pyStringLt "9.2.0" v = true →
        (renderTemplate t (init none) db).1 =
          .ok (formatPidQueryColumns t "query" "pid")) := by
  intro db v t h
  have hr := is_pg_resolve (init none) db v rfl h
  constructor
  · intro hb
    rw [hb] at hr
    obtain ⟨stX, hX, hr1⟩ :
        ∃ stX, stX.nineTwoFlag = some false ∧
          is_pg_at_least_nine_two (init none) db = (.ok false, stX) := ⟨_, rfl, hr⟩
    simp only [renderTemplate, query_column, pid_column, hr1, is_pg_memoized stX db false hX]
  · intro hb
    rw [hb] at hr
    obtain ⟨stX, hX, hr1⟩ :
        ∃ stX, stX.nineTwoFlag = some true ∧
          is_pg_at_least_nine_two (init none) db = (.ok true, stX) := ⟨_, rfl, hr⟩
    simp only [renderTemplate, query_column, pid_column, hr1, is_pg_memoized stX db true hX]

/-- Witness for C3 at the 9.1.3 server of the spec's scenario. -/
theorem c3_witness :
    (pyStringLt "9.2.0" "9.1.3" = false →
      (renderTemplate "\x7bpid_column\x7d, \x7bquery_column\x7d" (init none) dbNineOne).1 =
        .ok (formatPidQueryColumns "\x7bpid_column\x7d, \x7bquery_column\x7d"
              "current_query" "procpid")) ∧
    (pyStringLt "9.2.0" "9.1.3" = true →
      (renderTemplate "\x7bpid_column\x7d, \x7bquery_column\x7d" (init none) dbNineOne).1 =
        .ok (formatPidQueryColumns "\x7bpid_column\x7d, \x7bquery_column\x7d" "query" "pid")) :=
  c3_column_substitution dbNineOne "9.1.3" "\x7bpid_column\x7d, \x7bquery_column\x7d" (by decide)

/-- C4: the version flag is resolved by comparing the captured group against
the fixed threshold `'9.2.0'` with `pyStringLt`, which is exactly lexical
(dictionary) string ordering; consequently `"9.10.0" > "9.2.0"` evaluates
false although 9.10.0 is numerically above 9.2.0. -/
theorem c4_lexical_comparison :
    (∀ (st : State) (db : Db) (v : String),
        st.nineTwoFlag = none → matchVersionGroup db.version_string = some v →
        (is_pg_at_least_nine_two st db).1 = .ok (pyStringLt "9.2.0" v)) ∧
    (∀ a b : String, pyStringLt a b = true ↔ LexLt a.data b.data) ∧
    matchVersionGroup dbNineTen.version_string = some "9.10.0" ∧
    pyStringLt "9.2.0" "9.10.0" = false ∧
    semverLt (9, 2, 0) (9, 10, 0) ∧
    (is_pg_at_least_nine_two (init none) dbNineTen).1 = .ok false := by
  refine ⟨?_, ?_, by decide, by decide, Or.inr ⟨rfl, Or.inl (by norm_num)⟩, by decide⟩
  · intro st db v h0 h
    rw [is_pg_resolve st db v h0 h]
  · intro a b
    exact pyStrLt_iff_lexLt a.data b.data

/-- Witness for C4 at a concrete 9.3.5 server. -/
theorem c4_witness :
    (is_pg_at_least_nine_two (init none) dbNineThree).1 = .ok (pyStringLt "9.2.0" "9.3.5") :=
  c4_lexical_comparison.1 (init none) dbNineThree "9.3.5" rfl (by decide)

/-- C5 counterexample: `execute` deletes newlines before collapsing
whitespace, so for `"SELECT\n1"` (newline not adjacent to other whitespace)
it submits `"SELECT1"` — the two tokens are glued, not joined by a single
space as the claim demands for every statement. -/
theorem c5_newline_gluing_counterexample :
    (execute (init none) dbNineThree "SELECT\n1").2.executed = ["SELECT1"] ∧
    specNormalize "SELECT\n1" = "SELECT 1" ∧
    ("SELECT1" : String) ≠ "SELECT 1" := by
  refine ⟨by decide, by decide, by decide⟩

/-- C5 as amended: `execute` deletes newline characters and then collapses
the remaining internal whitespace into single spaces (trimming the ends), so
two tokens separated only by a newline are concatenated; on the claim's
scenario, whose newlines are adjacent to spaces, it submits the single-line
single-spaced statement the spec describes. -/
theorem c5_whitespace_normalization :
    (∀ (st : State) (db : Db) (s : String),
        (execute st db s).2.executed =
          st.executed ++ [joinTokens (pySplit (removeNewlines s))]) ∧
    (execute (init none) dbNineThree "SELECT\n  1,\n  2").2.executed = ["SELECT 1, 2"] ∧
    specNormalize "SELECT\n  1,\n  2" = "SELECT 1, 2" := by
  refine ⟨?_, by decide, by decide⟩
  intro st db s
  simp [execute, normalize, ensureCursor_executed]

/-- C6 counterexample: when the extension is absent the failing probe leaves
the statistics flag unresolved, so a second access issues the probe again —
the error state is not memoized and the probe is not issued at most once per
client lifetime. -/
theorem c6_error_not_memoized_counterexample :
    (pg_stat_statement (init none) dbNoStats).1 =
      .error (.environmentError PG_STATS_NOT_AVAILABLE) ∧
    (pg_stat_statement (init none) dbNoStats).2.pgStatStatementFlag = none ∧
    (pg_stat_statement (pg_stat_statement (init none) dbNoStats).2 dbNoStats).2.executed =
      [normalize PG_STAT_STATEMENT, normalize PG_STAT_STATEMENT] := by
  refine ⟨by decide, by decide, by decide⟩

/-- C6 as amended: each capability flag memoizes a successfully resolved
state for the client's lifetime (statistics: `true`; version: `true` or
`false`), and a memoized flag is returned without any further query; an
error outcome of the statistics probe is *not* memoized — the flag stays
unresolved and a subsequent access issues the probe query again. -/
theorem c6_capability_flag_memoization :
    (∀ (st : State) (db : Db) (b : Bool) (st1 : State),
        pg_stat_statement st db = (.ok b, st1) →
        st1.pgStatStatementFlag = some b ∧ pg_stat_statement st1 db = (.ok b, st1)) ∧
    (∀ (st : State) (db : Db) (e : PgError) (st1 : State),
        pg_stat_statement st db = (.error e, st1) →
        st1.pgStatStatementFlag = none ∧
        (pg_stat_statement st1 db).2.executed =
          st1.executed ++ [normalize PG_STAT_STATEMENT]) ∧
    (∀ (st : State) (db : Db) (b : Bool) (st1 : State),
        is_pg_at_least_nine_two st db = (.ok b, st1) →
        st1.nineTwoFlag = some b ∧ is_pg_at_least_nine_two st1 db = (.ok b, st1)) := by
  refine ⟨?_, ?_, ?_⟩
  · intro st db b st1 h
    cases hflag : st.pgStatStatementFlag with
    | some c =>
      rw [pg_stat_memoized st db c hflag] at h
      injection h with h1 h2
      injection h1 with hb
      subst hb; subst h2
      exact ⟨hflag, pg_stat_memoized st db c hflag⟩
    | none =>
      cases hav : db.stat_available with
      | true =>
        rw [pg_stat_resolve_ok st db hflag hav] at h
        injection h with h1 h2
        injection h1 with hb
        subst hb; subst h2
        exact ⟨rfl, pg_stat_memoized _ db true rfl⟩
      | false =>
        rw [pg_stat_resolve_err st db hflag hav] at h
        injection h with h1 h2
        exact Except.noConfusion h1
  · intro st db e st1 h
    cases hflag : st.pgStatStatementFlag with
    | some c =>
      rw [pg_stat_memoized st db c hflag] at h
      injection h with h1 h2
      exact Except.noConfusion h1
    | none =>
      cases hav : db.stat_available with
      | true =>
        rw [pg_stat_resolve_ok st db hflag hav] at h
        injection h with h1 h2
        exact Except.noConfusion h1
      | false =>
        rw [pg_stat_resolve_err st db hflag hav] at h
        injection h with h1 h2
        subst h2
        have hf1 : ({ ensureCursor st with
            executed := (ensureCursor st).executed ++ [normalize PG_STAT_STATEMENT] } :
            State).pgStatStatementFlag = none := by
          show (ensureCursor st).pgStatStatementFlag = none
          rw [ensureCursor_pgFlag]
          exact hflag
        refine ⟨hf1, ?_⟩
        rw [pg_stat_resolve_err _ db hf1 hav]
        show (ensureCursor _).executed ++ _ = _
        rw [ensureCursor_executed]
  · intro st db b st1 h
    cases hflag : st.nineTwoFlag with
    | some c =>
      rw [is_pg_memoized st db c hflag] at h
      injection h with h1 h2
      injection h1 with hb
      subst hb; subst h2
      exact ⟨hflag, is_pg_memoized st db c hflag⟩
    | none =>
      cases hm : matchVersionGroup db.version_string with
      | none =>
        rw [is_pg_parse_fail st db hflag hm] at h
        injection h with h1 h2
        exact Except.noConfusion h1
      | some v =>
        rw [is_pg_resolve st db v hflag hm] at h
        injection h with h1 h2
        injection h1 with hb
        subst hb; subst h2
        exact ⟨rfl, is_pg_memoized _ db _ rfl⟩

/-- Witness for C6 at a concrete client and server. -/
theorem c6_witness :
    (pg_stat_statement (init none) dbNineThree).2.pgStatStatementFlag = some true ∧
    pg_stat_statement (pg_stat_statement (init none) dbNineThree).2 dbNineThree =
      (.ok true, (pg_stat_statement (init none) dbNineThree).2) :=
  c6_capability_flag_memoization.1 (init none) dbNineThree true
    (pg_stat_statement (init none) dbNineThree).2 (by decide)

/-- C7: a successful first call to `is_pg_at_least_nine_two` on a fresh
client logs exactly one query — the version probe — and a second call
returns the memoized boolean with an unchanged state, issuing nothing. -/
theorem c7_version_probe_once :
    ∀ (dsn : Option String) (db : Db) (b : Bool) (st1 : State),
      is_pg_at_least_nine_two (init dsn) db = (.ok b, st1) →
      is_pg_at_least_nine_two st1 db = (.ok b, st1) ∧
      st1.executed = [normalize VERSION] := by
  intro dsn db b st1 h
  cases hm : matchVersionGroup db.version_string with
  | none =>
    rw [is_pg_parse_fail (init dsn) db rfl hm] at h
    injection h with h1 h2
    exact Except.noConfusion h1
  | some v =>
    rw [is_pg_resolve (init dsn) db v rfl hm] at h
    injection h with h1 h2
    injection h1 with hb
    subst hb; subst h2
    exact ⟨is_pg_memoized _ db _ rfl, by simp [ensureCursor, init]⟩

/-- Witness for C7 at a concrete 9.3.5 server. -/
theorem c7_witness :
    is_pg_at_least_nine_two (is_pg_at_least_nine_two (init none) dbNineThree).2 dbNineThree =
      (.ok true, (is_pg_at_least_nine_two (init none) dbNineThree).2) ∧
    (is_pg_at_least_nine_two (init none) dbNineThree).2.executed = [normalize VERSION] :=
  c7_version_probe_once none dbNineThree true
    (is_pg_at_least_nine_two (init none) dbNineThree).2 (by decide)

/-- C8: whenever the version flag is unresolved and the server's version
string does not match `"PostgreSQL <major>.<minor>.<patch> on"`, resolving
the flag fails with the ParseError kind. -/
theorem c8_unparseable_version_parse_error :
    ∀ (st : State) (db : Db),
      st.nineTwoFlag = none → matchVersionGroup db.version_string = none →
      (is_pg_at_least_nine_two st db).1 = .error .parseError := by
  intro st db h0 h
  rw [is_pg_parse_fail st db h0 h]

/-- Witness for C8 at a concrete non-matching version string. -/
theorem c8_witness :
    (is_pg_at_least_nine_two (init none) dbBadVersion).1 = .error .parseError :=
  c8_unparseable_version_parse_error (init none) dbBadVersion rfl (by decide)

/-- C9: `close_db_connection` on a never-opened client does nothing and, the
function being total, raises nothing; repeating it yields the same result
(the source never resets the fields, and closing an already-closed psycopg2
cursor or connection does not raise); when both resources exist it releases
the cursor first and the connection second. -/
theorem c9_close_is_safe :
    (∀ dsn, close_db_connection (init dsn) = (init dsn, [])) ∧
    (∀ st : State, close_db_connection (close_db_connection st).1 = close_db_connection st) ∧
    (∀ st : State, st.cursorCreated = true → st.connCreated = true →
       (close_db_connection st).2 = [Action.closeCursor, Action.closeConn]) := by
  refine ⟨?_, ?_, ?_⟩
  · intro dsn
    simp [close_db_connection, init]
  · intro st
    simp [close_db_connection]
  · intro st h1 h2
    simp [close_db_connection, h1, h2]

/-- Witness for C9 at a concrete opened client. -/
theorem c9_witness :
    (close_db_connection (is_pg_at_least_nine_two (init none) dbNineThree).2).2 =
      [Action.closeCursor, Action.closeConn] :=
  c9_close_is_safe.2.2 (is_pg_at_least_nine_two (init none) dbNineThree).2
    (by decide) (by decide)

/-- C10: the truncate option changes only the select fragment substituted
into the report template — with `truncate = true` the CASE expression that
renders query text of length 40 or more as `substr(query, 0, 38) || '..'`
and shorter text unchanged, with `truncate = false` the bare `query` column
— while the rest of each template (`CALLS_POST`, `OUTLIERS_PRE`,
`OUTLIERS_POST`) is identical in both cases; and the SQL each method submits
is exactly the normalized rendering. -/
theorem c10_truncate_changes_only_fragment :
    calls_sql true = CALLS_TRUNC_SELECT ++ CALLS_POST ∧
    calls_sql false = "SELECT query," ++ CALLS_POST ∧
    outliers_sql true = OUTLIERS_PRE ++ OUTLIERS_TRUNC_QUERY ++ OUTLIERS_POST ∧
    outliers_sql false = OUTLIERS_PRE ++ "query" ++ OUTLIERS_POST ∧
    (calls true (init none) dbNineThree).2.executed =
      [normalize PG_STAT_STATEMENT, normalize (calls_sql true)] ∧
    (calls false (init none) dbNineThree).2.executed =
      [normalize PG_STAT_STATEMENT, normalize (calls_sql false)] ∧
    (outliers true (init none) dbNineThree).2.executed =
      [normalize PG_STAT_STATEMENT, normalize (outliers_sql true)] ∧
    (outliers false (init none) dbNineThree).2.executed =
      [normalize PG_STAT_STATEMENT, normalize (outliers_sql false)] := by
  refine ⟨by decide, by decide, by decide, by decide, by decide, by decide, by decide, by decide⟩

end PgExtras
